import Mathlib

/-!
Shallow embedding of `drivers/dfu/dfu_mmc.c` (U-Boot DFU MMC back-end).

The C functions are translated into pure Lean functions.  The mutable
device state (`mmc->part_num`) and the staging buffer are passed and
returned explicitly; the external capabilities (the block-device driver,
the partition-switch primitive, the command interpreter used for
filesystem operations) are parameters collected in environment records,
and every invocation of such a capability is recorded in an event trace
so that "performs no device access" is a statement about the trace.
Machine integers are modelled as `Nat`/`Int`; the `u32` truncations of
the C code are written as explicit `% U32_MOD`.
-/

/-- Value of the errno constant `EINVAL` (the C code returns `-EINVAL`). -/
def EINVAL : Int := 22

/-- Value of the errno constant `ENODEV` (the C code returns `-ENODEV`). -/
def ENODEV : Int := 19

/-- Value of the errno constant used for failed transfers (the C code
returns the negated I/O errno, -5, on a short transfer). -/
def EIO_errno : Int := 5

/-- Modulus of the C `u32` type: casts and `u32` arithmetic reduce mod this. -/
def U32_MOD : Nat := 2 ^ 32

/-- Modelled from the spec: the `ALIGN` macro comes from the U-Boot headers,
which are not part of this source file; the spec describes it as rounding
`x` up to the nearest multiple of the alignment `a`. -/
def ALIGN (x a : Nat) : Nat := ((x + a - 1) / a) * a

/-- Operations of `enum dfu_op` used by this file. -/
inductive DfuOp
  | read
  | write
  | size
  deriving DecidableEq

/-- Layouts of `enum dfu_layout` handled by this file. -/
inductive DfuLayout
  | raw_addr
  | fs_fat
  | fs_ext4
  deriving DecidableEq

/-- The fields of `struct dfu_entity` (with its embedded `data.mmc`
member) that `dfu_mmc.c` reads or writes. -/
structure DfuEntity where
  layout : DfuLayout
  lba_start : Nat
  lba_size : Nat
  lba_blk_size : Nat
  hw_partition : Int
  dev : Nat
  part : Nat
  name : String
  deriving DecidableEq

/-- The one field of `struct mmc` that `dfu_mmc.c` mutates: the currently
active hardware partition number. -/
structure Mmc where
  part_num : Int
  deriving DecidableEq

/-- External-capability invocations made by the block path, recorded as a
trace: a `mmc_switch_part` call, a `block_read` call or a `block_write`
call. -/
inductive MmcEvent
  | switchPart (part : Int)
  | blockRead (start count : Nat)
  | blockWrite (start count : Nat)
  deriving DecidableEq

/-- Predicate picking out partition-switch invocations in a trace. -/
def isSwitchEvent : MmcEvent → Bool
  | MmcEvent.switchPart _ => true
  | MmcEvent.blockRead _ _ => false
  | MmcEvent.blockWrite _ _ => false

/-- Results of the external block-device capabilities: `switch_result p`
is the return value of `mmc_switch_part(dev, p)`, and `block_read` /
`block_write` give the number of blocks the device reports transferred. -/
structure BlockEnv where
  switch_result : Int → Int
  block_read : Nat → Nat → Nat
  block_write : Nat → Nat → Nat

/-- Translation of `mmc_access_part`: if the requested partition is the
currently active one, succeed without touching the device; otherwise call
`mmc_switch_part` (recorded in the trace), propagate its failure, and on
success record the new active partition. -/
def mmc_access_part (env : BlockEnv) (mmc : Mmc) (part : Int) :
    Int × Mmc × List MmcEvent :=
  if part = mmc.part_num then (0, mmc, [])
  else if env.switch_result part ≠ 0 then
    (env.switch_result part, mmc, [MmcEvent.switchPart part])
  else (0, ⟨part⟩, [MmcEvent.switchPart part])

/-- Aligned transfer length of `mmc_block_op`: `*len = ALIGN(*len,
dfu->data.mmc.lba_blk_size)`. -/
def mmc_block_len (dfu : DfuEntity) (len0 : Nat) : Nat :=
  ALIGN len0 dfu.lba_blk_size

/-- Starting block of `mmc_block_op`: `blk_start = lba_start +
(u32)lldiv(offset, lba_blk_size)`, a `u32` computation. -/
def mmc_blk_start (dfu : DfuEntity) (offset : Nat) : Nat :=
  (dfu.lba_start + offset / dfu.lba_blk_size) % U32_MOD

/-- Block count of `mmc_block_op`: `blk_count = *len / lba_blk_size`
stored into a `u32`. -/
def mmc_blk_count (dfu : DfuEntity) (len0 : Nat) : Nat :=
  (mmc_block_len dfu len0 / dfu.lba_blk_size) % U32_MOD

/-- Bounds check of `mmc_block_op`: `blk_start + blk_count > lba_start +
lba_size`, all operands being C `unsigned int` values. -/
def mmc_range_exceeds (dfu : DfuEntity) (offset len0 : Nat) : Bool :=
  decide ((mmc_blk_start dfu offset + mmc_blk_count dfu len0) % U32_MOD >
    (dfu.lba_start + dfu.lba_size) % U32_MOD)

/-- Device transfer of `mmc_block_op`'s `switch (op)`: a read or write
calls the corresponding block-device capability and is traced; the
default arm (reached for `DFU_OP_SIZE`) performs no device call and
leaves `n` at its initial value 0. -/
def mmc_block_transfer (env : BlockEnv) (op : DfuOp)
    (blk_start blk_count : Nat) : Nat × List MmcEvent :=
  match op with
  | DfuOp.read =>
    (env.block_read blk_start blk_count, [MmcEvent.blockRead blk_start blk_count])
  | DfuOp.write =>
    (env.block_write blk_start blk_count, [MmcEvent.blockWrite blk_start blk_count])
  | DfuOp.size => (0, [])

/-- Result of `mmc_block_op`: the returned error code, the value left in
the caller's `*len` out-parameter, the device state after the call and
the trace of capability invocations. -/
structure BlockOpResult where
  ret : Int
  len : Nat
  mmc : Mmc
  events : List MmcEvent
  deriving DecidableEq

/-- Path of `mmc_block_op` taken when `hw_partition < 0`: no partition
switching at all around the transfer, `-EIO` on a short transfer. -/
def mmc_block_op_nohw (env : BlockEnv) (op : DfuOp) (dfu : DfuEntity)
    (mmc : Mmc) (offset len0 : Nat) : BlockOpResult :=
  if (mmc_block_transfer env op (mmc_blk_start dfu offset)
      (mmc_blk_count dfu len0)).1 ≠ mmc_blk_count dfu len0 then
    ⟨- EIO_errno, mmc_block_len dfu len0, mmc,
      (mmc_block_transfer env op (mmc_blk_start dfu offset)
        (mmc_blk_count dfu len0)).2⟩
  else
    ⟨0, mmc_block_len dfu len0, mmc,
      (mmc_block_transfer env op (mmc_blk_start dfu offset)
        (mmc_blk_count dfu len0)).2⟩

/-- Path of `mmc_block_op` taken when `hw_partition >= 0`: back up
`mmc->part_num`, switch to the configured hardware partition (aborting on
failure), transfer, then switch back.  On a short transfer the restore is
attempted but its result is discarded and `-EIO` is returned; on a
successful transfer a failed restore propagates the restore's own error. -/
def mmc_block_op_hw (env : BlockEnv) (op : DfuOp) (dfu : DfuEntity)
    (mmc : Mmc) (offset len0 : Nat) : BlockOpResult :=
  if (mmc_access_part env mmc dfu.hw_partition).1 ≠ 0 then
    ⟨(mmc_access_part env mmc dfu.hw_partition).1, mmc_block_len dfu len0,
      (mmc_access_part env mmc dfu.hw_partition).2.1,
      (mmc_access_part env mmc dfu.hw_partition).2.2⟩
  else
    let mmc1 := (mmc_access_part env mmc dfu.hw_partition).2.1
    let ev1 := (mmc_access_part env mmc dfu.hw_partition).2.2
    let tr := mmc_block_transfer env op (mmc_blk_start dfu offset)
      (mmc_blk_count dfu len0)
    let r2 := mmc_access_part env mmc1 mmc.part_num
    if tr.1 ≠ mmc_blk_count dfu len0 then
      ⟨- EIO_errno, mmc_block_len dfu len0, r2.2.1, ev1 ++ tr.2 ++ r2.2.2⟩
    else if r2.1 ≠ 0 then
      ⟨r2.1, mmc_block_len dfu len0, r2.2.1, ev1 ++ tr.2 ++ r2.2.2⟩
    else
      ⟨0, mmc_block_len dfu len0, r2.2.1, ev1 ++ tr.2 ++ r2.2.2⟩

/-- Translation of `mmc_block_op`: align the length, compute the block
range, reject with `-EINVAL` when it exceeds the designated area (before
any device access), then run the transfer, under a hardware-partition
switch/restore when `hw_partition >= 0`. -/
def mmc_block_op (env : BlockEnv) (op : DfuOp) (dfu : DfuEntity)
    (mmc : Mmc) (offset len0 : Nat) : BlockOpResult :=
  if mmc_range_exceeds dfu offset len0 then
    ⟨- EINVAL, mmc_block_len dfu len0, mmc, []⟩
  else if 0 ≤ dfu.hw_partition then
    mmc_block_op_hw env op dfu mmc offset len0
  else
    mmc_block_op_nohw env op dfu mmc offset len0

/-- State of the staging buffer: `dfu_file_buf_len` together with the
contents of the static array `dfu_file_buf` (bytes). -/
structure FileBufState where
  len : Nat
  data : List Nat
  deriving DecidableEq

/-- Effect of `memcpy(dst + pos, src, src.length)` on a byte sequence. -/
def memcpy_at (dst : List Nat) (pos : Nat) (src : List Nat) : List Nat :=
  dst.take pos ++ src ++ dst.drop (pos + src.length)

/-- Translation of `mmc_file_buffer`: reject an append that would push
`dfu_file_buf_len` past the capacity (`CONFIG_SYS_DFU_MAX_FILE_SIZE`,
a board-configuration constant taken here as the parameter `cap`),
resetting the length to 0 and copying nothing; otherwise copy the bytes
to the tail and advance the length. -/
def mmc_file_buffer (cap : Nat) (st : FileBufState) (buf : List Nat) :
    Int × FileBufState :=
  if st.len + buf.length > cap then
    (- EINVAL, { st with len := 0 })
  else
    (0, ⟨st.len + buf.length, memcpy_at st.data st.len buf⟩)

/-- Filesystem-capability invocation assembled by `mmc_file_op`: the C
code formats these values into a command string (`"%s%s mmc %d:%d ..."`)
and hands it to the command interpreter; the buffer address is omitted
here and the length field is meaningful for writes only. -/
structure FsCall where
  fsname : String
  opname : String
  dev : Nat
  part : Nat
  name : String
  len : Nat
  deriving DecidableEq

/-- Results of the external capabilities used by `mmc_file_op`:
`run_command` is the command interpreter, `filesize` the value of the
`filesize` environment variable it publishes (`none` when unset),
already parsed as the hexadecimal number `simple_strtoul` would read. -/
structure FsEnv where
  run_command : FsCall → Int
  filesize : Option Nat

/-- Filesystem name chosen by `mmc_file_op`'s first `switch`: `"fat"` or
`"ext4"`, and no name (error return) for any other layout. -/
def fsnameOf : DfuLayout → Option String
  | DfuLayout.fs_fat => some ("fat")
  | DfuLayout.fs_ext4 => some ("ext4")
  | DfuLayout.raw_addr => none

/-- Operation name chosen by `mmc_file_op`'s second `switch`. -/
def opnameOf : DfuOp → String
  | DfuOp.read => "load"
  | DfuOp.write => "write"
  | DfuOp.size => "size"

/-- Translation of `mmc_file_op`: returns the error code, the value left
in `*len`, and the list of command-interpreter invocations.  An
unsupported layout returns -1 without running a command; a failed command
propagates its code; for non-write operations the byte count is read back
from the `filesize` environment variable, a missing variable being the
error -1. -/
def mmc_file_op (env : FsEnv) (op : DfuOp) (dfu : DfuEntity) (len : Nat) :
    Int × Nat × List FsCall :=
  match fsnameOf dfu.layout with
  | none => (-1, len, [])
  | some fsname =>
    let call : FsCall := ⟨fsname, opnameOf op, dfu.dev, dfu.part, dfu.name, len⟩
    if env.run_command call ≠ 0 then (env.run_command call, len, [call])
    else if op ≠ DfuOp.write then
      match env.filesize with
      | none => (-1, len, [call])
      | some n => (0, n, [call])
    else (0, len, [call])

/-- Translation of `dfu_flush_medium_mmc`: on a non-raw layout, run the
filesystem write for the staged bytes and then reset `dfu_file_buf_len`
to 0 unconditionally; on the raw layout do nothing and succeed.  Returns
the error code, the new `dfu_file_buf_len` and the capability trace. -/
def dfu_flush_medium_mmc (env : FsEnv) (dfu : DfuEntity) (buf_len : Nat) :
    Int × Nat × List FsCall :=
  if dfu.layout ≠ DfuLayout.raw_addr then
    ((mmc_file_op env DfuOp.write dfu buf_len).1, 0,
      (mmc_file_op env DfuOp.write dfu buf_len).2.2)
  else (0, buf_len, [])

/-- Core of `strsep(&s, " ")` on a non-NULL string: the first token (the
characters up to the first space) and the updated pointer, which is NULL
(`none`) when no space was found and the remainder after the space
otherwise.  Note that consecutive spaces yield empty tokens, exactly as
`strsep` does. -/
def strsepL : List Char → List Char × Option (List Char)
  | [] => ([], none)
  | c :: cs =>
    if c = ' ' then ([], some cs)
    else ((c :: (strsepL cs).1, (strsepL cs).2))

/-- Full `strsep(&s, " ")` including the NULL-pointer case: on a NULL
string the returned token is NULL and the pointer stays NULL. -/
def strsep : Option (List Char) → Option (List Char) × Option (List Char)
  | none => (none, none)
  | some cs => (some ((strsepL cs).1), (strsepL cs).2)

/-- Value of a character as a digit in the given base, when it is one. -/
def digitVal (base : Nat) (c : Char) : Option Nat :=
  if '0' ≤ c ∧ c ≤ '9' then
    if c.toNat - 48 < base then some (c.toNat - 48) else none
  else if 'a' ≤ c ∧ c ≤ 'f' then
    if c.toNat - 87 < base then some (c.toNat - 87) else none
  else if 'A' ≤ c ∧ c ≤ 'F' then
    if c.toNat - 55 < base then some (c.toNat - 55) else none
  else none

/-- Accumulate digits while they are valid in the base; stop at the first
character that is not. -/
def parseDigits (base : Nat) : List Char → Nat → Nat
  | [], acc => acc
  | c :: cs, acc =>
    match digitVal base c with
    | some v => parseDigits base cs (acc * base + v)
    | none => acc

/-- Modelled from the spec: `simple_strtoul` is library code outside this
source file; per the spec a `0x` (or `0X`) prefix selects base 16, a
remaining leading `0` base 8, otherwise base 10, digits are consumed
while valid and a malformed numeral resolves to 0. -/
def simple_strtoul : List Char → Nat
  | '0' :: 'x' :: cs => parseDigits 16 cs 0
  | '0' :: 'X' :: cs => parseDigits 16 cs 0
  | '0' :: cs => parseDigits 8 cs 0
  | cs => parseDigits 10 cs 0

/-- Fields of `struct mmc` consulted by `dfu_fill_entity_mmc`. -/
structure MmcDev where
  read_bl_len : Nat
  deriving DecidableEq

/-- Partition geometry returned by `get_partition_info`. -/
structure PartInfo where
  start : Nat
  size : Nat
  blksz : Nat
  deriving DecidableEq

/-- Results of the external capabilities used by `dfu_fill_entity_mmc`:
the device lookup (`find_mmc_device`, `none` when absent), the result of
`mmc_init`, and the partition-geometry lookup (`get_partition_info`,
`none` for a nonzero return). -/
structure ParseEnv where
  find_mmc : Option MmcDev
  mmc_init_ret : Int
  partinfo : Nat → Option PartInfo

/-- Body of `dfu_fill_entity_mmc` after the three tokens have been
collected: look up and initialize the device, preset `hw_partition` to
`-EINVAL`, then dispatch on the entity type.  `s` is the string pointer
left by the third `strsep`.  Returns the error code and the updated
entity. -/
def dfu_fill_entity_core (env : ParseEnv) (dfu0 : DfuEntity)
    (arg0 arg1 arg2 : List Char) (s : Option (List Char)) :
    Int × DfuEntity :=
  let second_arg := simple_strtoul arg1
  let third_arg := simple_strtoul arg2
  match env.find_mmc with
  | none => (- ENODEV, dfu0)
  | some mmc =>
    if env.mmc_init_ret ≠ 0 then (- ENODEV, dfu0)
    else
      let dfu1 := { dfu0 with hw_partition := - EINVAL }
      if arg0 = "raw".toList then
        let dfu2 := { dfu1 with
          layout := DfuLayout.raw_addr
          lba_start := second_arg
          lba_size := third_arg
          lba_blk_size := mmc.read_bl_len }
        let dfu3 :=
          match s with
          | none => dfu2
          | some rest =>
            if (strsep (some rest)).1 = some ("mmcpart".toList) then
              { dfu2 with hw_partition :=
                  (simple_strtoul (((strsep (some rest)).2).getD []) : Int) }
            else dfu2
        (0, dfu3)
      else if arg0 = "part".toList then
        match env.partinfo third_arg with
        | none => (- ENODEV, dfu1)
        | some pi =>
          (0, { dfu1 with
            layout := DfuLayout.raw_addr
            lba_start := pi.start
            lba_size := pi.size
            lba_blk_size := pi.blksz
            dev := second_arg
            part := third_arg })
      else if arg0 = "fat".toList then
        (0, { dfu1 with
          layout := DfuLayout.fs_fat
          dev := second_arg
          part := third_arg })
      else if arg0 = "ext4".toList then
        (0, { dfu1 with
          layout := DfuLayout.fs_ext4
          dev := second_arg
          part := third_arg })
      else (- ENODEV, dfu1)

/-- Translation of `dfu_fill_entity_mmc`: collect `argv[0..2]` with three
`strsep` calls, failing with `-ENODEV` as soon as one returns NULL, then
run the body.  The input entity models the `dfu` structure being filled
in place. -/
def dfu_fill_entity_mmc (env : ParseEnv) (dfu0 : DfuEntity)
    (s0 : List Char) : Int × DfuEntity :=
  match strsep (some s0) with
  | (none, _) => (- ENODEV, dfu0)
  | (some arg0, s1) =>
    match strsep s1 with
    | (none, _) => (- ENODEV, dfu0)
    | (some arg1, s2) =>
      match strsep s2 with
      | (none, _) => (- ENODEV, dfu0)
      | (some arg2, s3) => dfu_fill_entity_core env dfu0 arg0 arg1 arg2 s3

/-- First whitespace-separated token of a descriptor: what the first
`strsep` call returns. -/
def firstToken (s : List Char) : List Char :=
  s.takeWhile (fun c => c != ' ')

/-- Number of tokens the `strsep` loop can draw from a descriptor: one
more than the number of spaces, since `strsep` yields one (possibly
empty) token per separator plus the final remainder. -/
def tokenCount (s : List Char) : Nat :=
  s.count ' ' + 1

/-! Helper lemmas. -/

theorem ALIGN_dvd (x a : Nat) : a ∣ ALIGN x a :=
  dvd_mul_left a _

theorem ALIGN_ge (x a : Nat) (ha : 0 < a) : x ≤ ALIGN x a := by
  unfold ALIGN
  rcases x with _ | n
  · exact Nat.zero_le _
  · have hs : n + 1 + a - 1 = n + a := by omega
    rw [hs, Nat.add_div_right n ha, Nat.add_mul, Nat.one_mul]
    have h1 : a * (n / a) + n % a = n := Nat.div_add_mod n a
    have h2 : n % a < a := Nat.mod_lt n ha
    have h3 : n / a * a = a * (n / a) := Nat.mul_comm _ _
    omega

theorem ALIGN_lt (x a : Nat) (ha : 0 < a) : ALIGN x a < x + a := by
  unfold ALIGN
  have h1 : (x + a - 1) / a * a ≤ x + a - 1 := Nat.div_mul_le_self _ _
  omega

theorem mmc_access_part_same (env : BlockEnv) (mmc : Mmc) :
    mmc_access_part env mmc mmc.part_num = (0, mmc, []) := by
  unfold mmc_access_part
  rw [if_pos rfl]

theorem mmc_access_part_fst_zero (env : BlockEnv) (mmc : Mmc) (part : Int)
    (h : env.switch_result part = 0) :
    (mmc_access_part env mmc part).1 = 0 := by
  unfold mmc_access_part
  split
  · rfl
  · rw [if_neg (by simp [h])]

/-- C1: a raw-layout access whose computed block range exceeds the
declared area (`blk_start + blk_count > lba_start + lba_size`, the sums
not wrapping at 2^32) fails with `-EINVAL` (OutOfRange), leaves the
device state untouched and performs no device access at all: the event
trace is empty, so neither a block transfer nor a partition switch was
invoked. -/
theorem raw_out_of_range_rejected (env : BlockEnv) (op : DfuOp)
    (dfu : DfuEntity) (mmc : Mmc) (offset len0 : Nat)
    (h1 : dfu.lba_start + dfu.lba_size < U32_MOD)
    (h4 : mmc_blk_start dfu offset + mmc_blk_count dfu len0 < U32_MOD)
    (h5 : mmc_blk_start dfu offset + mmc_blk_count dfu len0 >
      dfu.lba_start + dfu.lba_size) :
    mmc_block_op env op dfu mmc offset len0 =
      ⟨- EINVAL, mmc_block_len dfu len0, mmc, []⟩ := by
  have hg : mmc_range_exceeds dfu offset len0 = true := by
    unfold mmc_range_exceeds
    rw [Nat.mod_eq_of_lt h4, Nat.mod_eq_of_lt h1]
    exact decide_eq_true h5
  unfold mmc_block_op
  rw [hg]
  rfl

/-- Witness for C1 at a concrete input: an area of one block written with
two blocks: the computed range `[0, 2)` exceeds `[0, 1)`, the call
returns `-EINVAL`, and no event is traced. -/
theorem raw_out_of_range_rejected_witness :
    mmc_block_op ⟨fun _ => 0, fun _ _ => 0, fun _ _ => 0⟩ DfuOp.write
      ⟨DfuLayout.raw_addr, 0, 1, 512, -22, 0, 0, ""⟩ ⟨0⟩ 0 1024 =
      ⟨- EINVAL, mmc_block_len ⟨DfuLayout.raw_addr, 0, 1, 512, -22, 0, 0, ""⟩
        1024, ⟨0⟩, []⟩ :=
  raw_out_of_range_rejected _ _ _ _ _ _ (by decide) (by decide) (by decide)

/-- C2: for a positive block size, the aligned transfer length computed
by `mmc_block_op` is exactly the rounding of the requested length up to
the nearest multiple of the block size (the least multiple that is at
least the length), the starting block is `lba_start + offset /
lba_blk_size`, and the block count is the aligned length divided by the
block size (the divisions not truncating at the `u32` casts). -/
theorem raw_alignment_computation (dfu : DfuEntity) (offset len0 : Nat)
    (hB : 0 < dfu.lba_blk_size)
    (h2 : dfu.lba_start + offset / dfu.lba_blk_size < U32_MOD)
    (h3 : mmc_block_len dfu len0 / dfu.lba_blk_size < U32_MOD) :
    (dfu.lba_blk_size ∣ mmc_block_len dfu len0 ∧
      len0 ≤ mmc_block_len dfu len0 ∧
      mmc_block_len dfu len0 < len0 + dfu.lba_blk_size) ∧
    mmc_blk_start dfu offset = dfu.lba_start + offset / dfu.lba_blk_size ∧
    mmc_blk_count dfu len0 = mmc_block_len dfu len0 / dfu.lba_blk_size := by
  refine ⟨⟨ALIGN_dvd _ _, ALIGN_ge _ _ hB, ALIGN_lt _ _ hB⟩, ?_, ?_⟩
  · unfold mmc_blk_start
    exact Nat.mod_eq_of_lt h2
  · unfold mmc_blk_count
    exact Nat.mod_eq_of_lt h3

/-- Witness for C2 at a concrete input: block size 512, offset 512,
length 100: the aligned length 512 is the least multiple of 512 that is
at least 100, the start block is 100 + 1 and the count 1. -/
theorem raw_alignment_computation_witness :
    (512 ∣ mmc_block_len ⟨DfuLayout.raw_addr, 100, 50, 512, -22, 0, 0, ""⟩ 100 ∧
      100 ≤ mmc_block_len ⟨DfuLayout.raw_addr, 100, 50, 512, -22, 0, 0, ""⟩ 100 ∧
      mmc_block_len ⟨DfuLayout.raw_addr, 100, 50, 512, -22, 0, 0, ""⟩ 100 <
        100 + 512) ∧
    mmc_blk_start ⟨DfuLayout.raw_addr, 100, 50, 512, -22, 0, 0, ""⟩ 512 =
      100 + 512 / 512 ∧
    mmc_blk_count ⟨DfuLayout.raw_addr, 100, 50, 512, -22, 0, 0, ""⟩ 100 =
      mmc_block_len ⟨DfuLayout.raw_addr, 100, 50, 512, -22, 0, 0, ""⟩ 100 / 512 :=
  raw_alignment_computation _ _ _ (by decide) (by decide) (by decide)

/-- C9: the caller's length out-parameter always holds the block-aligned
length after `mmc_block_op` returns, on every path; in particular when
the bounds check fails the call returns `-EINVAL` and the out-parameter
still holds the aligned value. -/
theorem len_out_param_aligned (env : BlockEnv) (op : DfuOp)
    (dfu : DfuEntity) (mmc : Mmc) (offset len0 : Nat) :
    (mmc_block_op env op dfu mmc offset len0).len = mmc_block_len dfu len0 ∧
    (mmc_range_exceeds dfu offset len0 = true →
      (mmc_block_op env op dfu mmc offset len0).ret = - EINVAL) := by
  constructor
  · unfold mmc_block_op
    split
    · rfl
    · split
      · simp only [mmc_block_op_hw]
        split
        · rfl
        · split
          · rfl
          · split <;> rfl
      · simp only [mmc_block_op_nohw]
        split <;> rfl
  · intro hg
    unfold mmc_block_op
    rw [hg]
    rfl

/-- Witness for C9 at a concrete out-of-range input: the len
out-parameter holds the aligned value 1024 and the return is `-EINVAL`. -/
theorem len_out_param_aligned_witness :
    (mmc_block_op ⟨fun _ => 0, fun _ _ => 0, fun _ _ => 0⟩ DfuOp.read
      ⟨DfuLayout.raw_addr, 0, 1, 512, -22, 0, 0, ""⟩ ⟨0⟩ 0 1024).len =
      mmc_block_len ⟨DfuLayout.raw_addr, 0, 1, 512, -22, 0, 0, ""⟩ 1024 ∧
    (mmc_block_op ⟨fun _ => 0, fun _ _ => 0, fun _ _ => 0⟩ DfuOp.read
      ⟨DfuLayout.raw_addr, 0, 1, 512, -22, 0, 0, ""⟩ ⟨0⟩ 0 1024).ret = - EINVAL :=
  ⟨(len_out_param_aligned _ _ _ _ _ _).1,
    (len_out_param_aligned _ _ _ _ _ _).2 (by decide)⟩

/-- C10: switching to the partition already recorded as active returns
success at once with no capability invocation, and consequently a raw
access whose configured `hw_partition` equals the active partition traces
no partition-switch call at all, neither for the switch nor for the
restore. -/
theorem same_partition_no_switch (env : BlockEnv) (op : DfuOp)
    (dfu : DfuEntity) (mmc : Mmc) (offset len0 : Nat)
    (h : dfu.hw_partition = mmc.part_num) :
    mmc_access_part env mmc mmc.part_num = (0, mmc, []) ∧
    (mmc_block_op env op dfu mmc offset len0).events.all
      (fun e => ! isSwitchEvent e) = true := by
  refine ⟨mmc_access_part_same env mmc, ?_⟩
  unfold mmc_block_op
  split
  · rfl
  · split
    · simp only [mmc_block_op_hw, h, mmc_access_part_same env mmc]
      simp only [ne_eq, not_true_eq_false, if_false, List.nil_append,
        List.append_nil]
      split <;> (cases op <;> simp [mmc_block_transfer, isSwitchEvent])
    · simp only [mmc_block_op_nohw]
      split <;> (cases op <;> simp [mmc_block_transfer, isSwitchEvent])

/-- Witness for C10 at a concrete input: configured hardware partition 2
equals the active partition; the access part call is a no-op success and
the raw write traces only the block write, no switch. -/
theorem same_partition_no_switch_witness :
    mmc_access_part ⟨fun _ => -5, fun _ _ => 1, fun _ _ => 1⟩ ⟨2⟩
      (Mmc.part_num ⟨2⟩) = (0, ⟨2⟩, []) ∧
    (mmc_block_op ⟨fun _ => -5, fun _ _ => 1, fun _ _ => 1⟩ DfuOp.write
      ⟨DfuLayout.raw_addr, 0, 10, 512, 2, 0, 0, ""⟩ ⟨2⟩ 0 512).events.all
      (fun e => ! isSwitchEvent e) = true :=
  same_partition_no_switch _ _ _ _ _ _ (by decide)

/-- C5: whenever a raw-layout access reaches its device transfer (the
bounds check passes and the configured partition switch, if any,
succeeds), a device-reported block count different from `blk_count` makes
the call fail with `-EIO`, and the call returns success only when the
reported count equals `blk_count` exactly. -/
theorem short_transfer_error (env : BlockEnv) (op : DfuOp)
    (dfu : DfuEntity) (mmc : Mmc) (offset len0 : Nat)
    (hg : mmc_range_exceeds dfu offset len0 = false)
    (hsw : 0 ≤ dfu.hw_partition → env.switch_result dfu.hw_partition = 0) :
    ((mmc_block_transfer env op (mmc_blk_start dfu offset)
        (mmc_blk_count dfu len0)).1 ≠ mmc_blk_count dfu len0 →
      (mmc_block_op env op dfu mmc offset len0).ret = - EIO_errno) ∧
    ((mmc_block_op env op dfu mmc offset len0).ret = 0 →
      (mmc_blk_count dfu len0 : Nat) =
        (mmc_block_transfer env op (mmc_blk_start dfu offset)
          (mmc_blk_count dfu len0)).1) := by
  unfold mmc_block_op
  rw [hg]
  simp only [Bool.false_eq_true, if_false]
  split
  · rename_i hhw
    have hz := mmc_access_part_fst_zero env mmc dfu.hw_partition (hsw hhw)
    simp only [mmc_block_op_hw, hz, ne_eq, not_true_eq_false, if_false]
    constructor
    · intro hne
      rw [if_pos hne]
    · intro hret
      by_contra hne
      rw [if_pos (fun hc => hne hc.symm)] at hret
      have h0 : (- EIO_errno : Int) = 0 := hret
      exact absurd h0 (by decide)
  · simp only [mmc_block_op_nohw]
    constructor
    · intro hne
      rw [if_pos hne]
    · intro hret
      by_contra hne
      rw [if_pos (fun hc => hne hc.symm)] at hret
      have h0 : (- EIO_errno : Int) = 0 := hret
      exact absurd h0 (by decide)

theorem mmc_access_part_fail_state (env : BlockEnv) (m : Mmc) (p : Int)
    (h : (mmc_access_part env m p).1 ≠ 0) :
    (mmc_access_part env m p).2.1 = m := by
  unfold mmc_access_part at h ⊢
  by_cases hp : p = m.part_num
  · rw [if_pos hp] at h
    exact absurd rfl h
  · rw [if_neg hp] at h ⊢
    by_cases hs : env.switch_result p ≠ 0
    · rw [if_pos hs]
    · rw [if_neg hs] at h
      exact absurd rfl h

theorem mmc_access_part_part_num (env : BlockEnv) (m : Mmc) (p : Int)
    (h : env.switch_result p = 0) :
    (mmc_access_part env m p).2.1.part_num = p := by
  unfold mmc_access_part
  by_cases hp : p = m.part_num
  · rw [if_pos hp]
    exact hp.symm
  · rw [if_neg hp, if_neg (by simp [h])]

/-- Counterexample to C3 as stated: a raw write under a hardware
sub-partition switch (initial partition 0, configured partition 1) whose
wrapped transfer fails short (the device reports 0 of 1 blocks) and
whose restore switch also fails.  The call returns `-EIO` — the same
code as a plain transfer failure, so the restore failure is not reported
distinctly — and the device is left on partition 1, not the partition 0
that was active before the operation. -/
theorem partition_restore_counterexample :
    (mmc_block_op ⟨fun p => if p = 1 then 0 else -5, fun _ _ => 0, fun _ _ => 0⟩
      DfuOp.write ⟨DfuLayout.raw_addr, 0, 10, 512, 1, 0, 0, ""⟩ ⟨0⟩ 0
      512).ret = - EIO_errno ∧
    (mmc_block_op ⟨fun p => if p = 1 then 0 else -5, fun _ _ => 0, fun _ _ => 0⟩
      DfuOp.write ⟨DfuLayout.raw_addr, 0, 10, 512, 1, 0, 0, ""⟩ ⟨0⟩ 0
      512).mmc.part_num = 1 ∧
    (1 : Int) ≠ Mmc.part_num ⟨0⟩ := by
  decide

theorem mmc_access_part_eq_same (env : BlockEnv) (m : Mmc) (p : Int)
    (hp : p = m.part_num) : mmc_access_part env m p = (0, m, []) := by
  unfold mmc_access_part
  rw [if_pos hp]

theorem mmc_access_part_eq_fail (env : BlockEnv) (m : Mmc) (p : Int)
    (hp : p ≠ m.part_num) (hs : env.switch_result p ≠ 0) :
    mmc_access_part env m p =
      (env.switch_result p, m, [MmcEvent.switchPart p]) := by
  unfold mmc_access_part
  rw [if_neg hp, if_pos hs]

theorem mmc_access_part_eq_ok (env : BlockEnv) (m : Mmc) (p : Int)
    (hp : p ≠ m.part_num) (hs : env.switch_result p = 0) :
    mmc_access_part env m p = (0, ⟨p⟩, [MmcEvent.switchPart p]) := by
  unfold mmc_access_part
  rw [if_neg hp, if_neg (by simp [hs])]

/-- C3 as amended: under a hardware sub-partition switch the restore is
always attempted, and (1) whenever the restore switch capability
succeeds for the original partition, the active partition after the
operation equals the one before it, for success and failure of the
wrapped transfer alike; (2) when the operation reaches its transfer, the
partition is either already restored or a restore switch for the
original partition was invoked (also after a failed transfer); (3) a
restore failure is reported distinctly only when the wrapped transfer
succeeded: then the restore's own error code is returned.  (When the
wrapped transfer fails, `-EIO` is returned and a simultaneous restore
failure is silently discarded, as the counterexample shows.) -/
theorem partition_restore_amended (env : BlockEnv) (op : DfuOp)
    (dfu : DfuEntity) (mmc : Mmc) (offset len0 : Nat)
    (hhw : 0 ≤ dfu.hw_partition) :
    (env.switch_result mmc.part_num = 0 →
      (mmc_block_op env op dfu mmc offset len0).mmc.part_num =
        mmc.part_num) ∧
    (mmc_range_exceeds dfu offset len0 = false →
      env.switch_result dfu.hw_partition = 0 →
      ((mmc_block_op env op dfu mmc offset len0).mmc.part_num =
          mmc.part_num ∨
        MmcEvent.switchPart mmc.part_num ∈
          (mmc_block_op env op dfu mmc offset len0).events)) ∧
    (mmc_range_exceeds dfu offset len0 = false →
      env.switch_result dfu.hw_partition = 0 →
      (mmc_block_transfer env op (mmc_blk_start dfu offset)
        (mmc_blk_count dfu len0)).1 = mmc_blk_count dfu len0 →
      dfu.hw_partition ≠ mmc.part_num →
      env.switch_result mmc.part_num ≠ 0 →
      (mmc_block_op env op dfu mmc offset len0).ret =
        env.switch_result mmc.part_num) := by
  refine ⟨?_, ?_, ?_⟩
  · intro hres
    unfold mmc_block_op
    by_cases hR : mmc_range_exceeds dfu offset len0 = true
    · rw [if_pos hR]
    · rw [if_neg hR, if_pos hhw]
      simp only [mmc_block_op_hw]
      by_cases h1 : (mmc_access_part env mmc dfu.hw_partition).1 ≠ 0
      · rw [if_pos h1]
        rw [mmc_access_part_fail_state env mmc _ h1]
      · rw [if_neg h1]
        have hrest : (mmc_access_part env
            (mmc_access_part env mmc dfu.hw_partition).2.1
            mmc.part_num).2.1.part_num = mmc.part_num :=
          mmc_access_part_part_num env _ _ hres
        by_cases hn : (mmc_block_transfer env op (mmc_blk_start dfu offset)
            (mmc_blk_count dfu len0)).1 ≠ mmc_blk_count dfu len0
        · rw [if_pos hn]
          exact hrest
        · rw [if_neg hn]
          by_cases h2 : (mmc_access_part env
              (mmc_access_part env mmc dfu.hw_partition).2.1
              mmc.part_num).1 ≠ 0
          · rw [if_pos h2]
            exact hrest
          · rw [if_neg h2]
            exact hrest
  · intro hg hsw1
    unfold mmc_block_op
    rw [if_neg (by simp [hg]), if_pos hhw]
    have h1 : (mmc_access_part env mmc dfu.hw_partition).1 = 0 :=
      mmc_access_part_fst_zero env mmc _ hsw1
    simp only [mmc_block_op_hw]
    rw [if_neg (by simp [h1])]
    by_cases hp : mmc.part_num =
        (mmc_access_part env mmc dfu.hw_partition).2.1.part_num
    · left
      rw [mmc_access_part_eq_same env _ mmc.part_num hp]
      by_cases hn : (mmc_block_transfer env op (mmc_blk_start dfu offset)
          (mmc_blk_count dfu len0)).1 ≠ mmc_blk_count dfu len0
      · rw [if_pos hn]
        exact hp.symm
      · rw [if_neg hn, if_neg (by simp)]
        exact hp.symm
    · right
      have hr2 : (mmc_access_part env
          (mmc_access_part env mmc dfu.hw_partition).2.1
          mmc.part_num).2.2 = [MmcEvent.switchPart mmc.part_num] := by
        by_cases hs0 : env.switch_result mmc.part_num = 0
        · rw [mmc_access_part_eq_ok env _ _ hp hs0]
        · rw [mmc_access_part_eq_fail env _ _ hp hs0]
      by_cases hn : (mmc_block_transfer env op (mmc_blk_start dfu offset)
          (mmc_blk_count dfu len0)).1 ≠ mmc_blk_count dfu len0
      · rw [if_pos hn]
        simp [hr2]
      · rw [if_neg hn]
        by_cases h2 : (mmc_access_part env
            (mmc_access_part env mmc dfu.hw_partition).2.1
            mmc.part_num).1 ≠ 0
        · rw [if_pos h2]
          simp [hr2]
        · rw [if_neg h2]
          simp [hr2]
  · intro hg hsw1 htr hne hrs
    unfold mmc_block_op
    rw [if_neg (by simp [hg]), if_pos hhw]
    have h1 : (mmc_access_part env mmc dfu.hw_partition).1 = 0 :=
      mmc_access_part_fst_zero env mmc _ hsw1
    have hm1 : (mmc_access_part env mmc dfu.hw_partition).2.1.part_num =
        dfu.hw_partition :=
      mmc_access_part_part_num env _ _ hsw1
    simp only [mmc_block_op_hw]
    rw [if_neg (by simp [h1])]
    have hr2 : mmc_access_part env
        (mmc_access_part env mmc dfu.hw_partition).2.1 mmc.part_num =
        (env.switch_result mmc.part_num,
          (mmc_access_part env mmc dfu.hw_partition).2.1,
          [MmcEvent.switchPart mmc.part_num]) :=
      mmc_access_part_eq_fail env _ _
        (by rw [hm1]; exact fun hc => hne hc.symm) hrs
    rw [if_neg (not_ne_iff.mpr htr)]
    simp only [hr2]
    simp [hrs]

/-- Witness for the amended C3 at a concrete input: every switch
succeeds, the transfer fails short, and the device is back on the
original partition 0 afterwards. -/
theorem partition_restore_amended_witness :
    (mmc_block_op ⟨fun _ => 0, fun _ _ => 0, fun _ _ => 0⟩ DfuOp.write
      ⟨DfuLayout.raw_addr, 0, 10, 512, 1, 0, 0, ""⟩ ⟨0⟩ 0
      512).mmc.part_num = Mmc.part_num ⟨0⟩ :=
  (partition_restore_amended ⟨fun _ => 0, fun _ _ => 0, fun _ _ => 0⟩
    DfuOp.write ⟨DfuLayout.raw_addr, 0, 10, 512, 1, 0, 0, ""⟩ ⟨0⟩ 0 512
    (by decide)).1 (by decide)

/-- Witness for C5 at a concrete input: a one-block read for which the
device reports 0 blocks transferred fails with `-EIO`. -/
theorem short_transfer_error_witness :
    (mmc_block_op ⟨fun _ => 0, fun _ _ => 0, fun _ _ => 0⟩ DfuOp.read
      ⟨DfuLayout.raw_addr, 0, 10, 512, -22, 0, 0, ""⟩ ⟨0⟩ 0 512).ret =
      - EIO_errno :=
  (short_transfer_error ⟨fun _ => 0, fun _ _ => 0, fun _ _ => 0⟩ DfuOp.read
    ⟨DfuLayout.raw_addr, 0, 10, 512, -22, 0, 0, ""⟩ ⟨0⟩ 0 512
    (by decide) (by decide)).1 (by decide)

/-- C4: an append that would exceed the staging capacity fails with
`-EINVAL` (BufferOverflow), resets the buffer length to 0 and copies no
bytes (the stored data is unchanged); an append that fits copies the
bytes to the tail and advances the length by the number of appended
bytes; and after every append the buffer length is at most the
capacity. -/
theorem staging_append_policy (cap : Nat) (st : FileBufState)
    (buf : List Nat) :
    (st.len + buf.length > cap →
      mmc_file_buffer cap st buf = (- EINVAL, { st with len := 0 })) ∧
    (st.len + buf.length ≤ cap →
      mmc_file_buffer cap st buf =
        (0, ⟨st.len + buf.length, memcpy_at st.data st.len buf⟩)) ∧
    (mmc_file_buffer cap st buf).2.len ≤ cap := by
  refine ⟨fun h => ?_, fun h => ?_, ?_⟩
  · unfold mmc_file_buffer
    rw [if_pos h]
  · unfold mmc_file_buffer
    rw [if_neg (by omega)]
  · unfold mmc_file_buffer
    by_cases h : st.len + buf.length > cap
    · rw [if_pos h]
      exact Nat.zero_le _
    · rw [if_neg h]
      exact Nat.le_of_not_lt h

/-- Witness for C4 at a concrete input: capacity 3, length 2, appending 2
bytes overflows: the call fails with `-EINVAL`, the length is reset to 0
and the stored bytes are untouched. -/
theorem staging_append_policy_witness :
    mmc_file_buffer 3 ⟨2, [9, 9, 9]⟩ [5, 5] = (- EINVAL, ⟨0, [9, 9, 9]⟩) :=
  (staging_append_policy 3 ⟨2, [9, 9, 9]⟩ [5, 5]).1 (by decide)

/-- C6: a flush on a filesystem-layout entity resets the staging buffer
length to 0 whatever the filesystem-write capability returned, and a
flush on a raw-layout entity is a no-op success that invokes no external
capability. -/
theorem flush_resets_and_raw_noop (env : FsEnv) (dfu : DfuEntity)
    (buf_len : Nat) :
    ((dfu.layout = DfuLayout.fs_fat ∨ dfu.layout = DfuLayout.fs_ext4) →
      (dfu_flush_medium_mmc env dfu buf_len).2.1 = 0) ∧
    (dfu.layout = DfuLayout.raw_addr →
      dfu_flush_medium_mmc env dfu buf_len = (0, buf_len, [])) := by
  constructor
  · intro h
    unfold dfu_flush_medium_mmc
    rw [if_pos (by rcases h with h | h <;> simp [h])]
  · intro h
    unfold dfu_flush_medium_mmc
    rw [if_neg (by simp [h])]

/-- Witness for C6 at a concrete input: a FAT-layout flush whose
filesystem write fails (command returns -1) still leaves the buffer
length at 0, and a raw-layout flush is exactly the no-op success. -/
theorem flush_resets_and_raw_noop_witness :
    (dfu_flush_medium_mmc ⟨fun _ => -1, none⟩
      ⟨DfuLayout.fs_fat, 0, 0, 0, -22, 0, 1, "f"⟩ 7).2.1 = 0 ∧
    dfu_flush_medium_mmc ⟨fun _ => -1, none⟩
      ⟨DfuLayout.raw_addr, 0, 0, 0, -22, 0, 1, "f"⟩ 7 = (0, 7, []) :=
  ⟨(flush_resets_and_raw_noop ⟨fun _ => -1, none⟩
      ⟨DfuLayout.fs_fat, 0, 0, 0, -22, 0, 1, "f"⟩ 7).1 (Or.inl rfl),
    (flush_resets_and_raw_noop ⟨fun _ => -1, none⟩
      ⟨DfuLayout.raw_addr, 0, 0, 0, -22, 0, 1, "f"⟩ 7).2 rfl⟩

/-- C7: the three example descriptors parse as the spec states, for any
initialized device: `"raw 100 50"` gives a raw layout with
`lba_start = 100`, `lba_size = 50`, the device's native block size and no
hardware sub-partition (`hw_partition = -EINVAL < 0`); adding
`"mmcpart 2"` selects hardware sub-partition 2; `"fat 0 1"` gives a FAT
filesystem layout with device 0 and partition 1. -/
theorem descriptor_examples (env : ParseEnv) (dfu0 : DfuEntity)
    (m : MmcDev) (hfind : env.find_mmc = some m)
    (hinit : env.mmc_init_ret = 0) :
    dfu_fill_entity_mmc env dfu0 ("raw 100 50".toList) =
      (0, { dfu0 with
        layout := DfuLayout.raw_addr
        lba_start := 100
        lba_size := 50
        lba_blk_size := m.read_bl_len
        hw_partition := - EINVAL }) ∧
    dfu_fill_entity_mmc env dfu0 ("raw 100 50 mmcpart 2".toList) =
      (0, { dfu0 with
        layout := DfuLayout.raw_addr
        lba_start := 100
        lba_size := 50
        lba_blk_size := m.read_bl_len
        hw_partition := 2 }) ∧
    dfu_fill_entity_mmc env dfu0 ("fat 0 1".toList) =
      (0, { dfu0 with
        layout := DfuLayout.fs_fat
        hw_partition := - EINVAL
        dev := 0
        part := 1 }) := by
  obtain ⟨f, i, pi⟩ := env
  have hf : f = some m := hfind
  have hi : i = 0 := hinit
  subst hf
  subst hi
  exact ⟨rfl, rfl, rfl⟩

/-- Witness for C7 at a concrete environment (device present with block
size 512, init succeeding) and a concrete initial entity. -/
theorem descriptor_examples_witness :
    dfu_fill_entity_mmc ⟨some ⟨512⟩, 0, fun _ => none⟩
      ⟨DfuLayout.raw_addr, 0, 0, 0, 0, 0, 0, ""⟩ ("raw 100 50".toList) =
      (0, ⟨DfuLayout.raw_addr, 100, 50, 512, - EINVAL, 0, 0, ""⟩) ∧
    dfu_fill_entity_mmc ⟨some ⟨512⟩, 0, fun _ => none⟩
      ⟨DfuLayout.raw_addr, 0, 0, 0, 0, 0, 0, ""⟩
      ("raw 100 50 mmcpart 2".toList) =
      (0, ⟨DfuLayout.raw_addr, 100, 50, 512, 2, 0, 0, ""⟩) ∧
    dfu_fill_entity_mmc ⟨some ⟨512⟩, 0, fun _ => none⟩
      ⟨DfuLayout.raw_addr, 0, 0, 0, 0, 0, 0, ""⟩ ("fat 0 1".toList) =
      (0, ⟨DfuLayout.fs_fat, 0, 0, 0, - EINVAL, 0, 1, ""⟩) :=
  descriptor_examples ⟨some ⟨512⟩, 0, fun _ => none⟩
    ⟨DfuLayout.raw_addr, 0, 0, 0, 0, 0, 0, ""⟩ ⟨512⟩ rfl rfl

theorem strsepL_fst (cs : List Char) :
    (strsepL cs).1 = cs.takeWhile (fun c => c != ' ') := by
  induction cs with
  | nil => rfl
  | cons c cs ih =>
    by_cases h : c = ' '
    · simp [strsepL, h, List.takeWhile_cons]
    · simp [strsepL, h, List.takeWhile_cons, ih]

theorem strsepL_count_some (cs r : List Char)
    (h : (strsepL cs).2 = some r) : cs.count ' ' = r.count ' ' + 1 := by
  induction cs generalizing r with
  | nil => simp [strsepL] at h
  | cons c cs ih =>
    by_cases hc : c = ' '
    · simp only [strsepL, if_pos hc] at h
      obtain rfl : cs = r := Option.some.inj h
      subst hc
      simp [List.count_cons]
    · simp only [strsepL, if_neg hc] at h
      have := ih r h
      simp [List.count_cons, hc, this, Ne.symm hc]

theorem dfu_fill_entity_core_unknown (env : ParseEnv) (dfu0 : DfuEntity)
    (arg0 arg1 arg2 : List Char) (s3 : Option (List Char))
    (h0 : arg0 ≠ "raw".toList) (h1 : arg0 ≠ "part".toList)
    (h2 : arg0 ≠ "fat".toList) (h3 : arg0 ≠ "ext4".toList) :
    (dfu_fill_entity_core env dfu0 arg0 arg1 arg2 s3).1 = - ENODEV := by
  rcases hfm : env.find_mmc with _ | mmc
  · simp [dfu_fill_entity_core, hfm]
  · simp only [dfu_fill_entity_core, hfm]
    by_cases hi : env.mmc_init_ret ≠ 0
    · rw [if_pos hi]
    · rw [if_neg hi, if_neg h0, if_neg h1, if_neg h2, if_neg h3]

/-- C8: a descriptor whose first token is none of `"raw"`, `"part"`,
`"fat"`, `"ext4"`, or that offers fewer than three whitespace-separated
tokens, is rejected with `-ENODEV`, the code the parser reports for a
descriptor it cannot use (its InvalidArgument failure). -/
theorem descriptor_invalid_rejected (env : ParseEnv) (dfu0 : DfuEntity)
    (s : List Char)
    (h : firstToken s ∉
        ["raw".toList, "part".toList, "fat".toList, "ext4".toList] ∨
      tokenCount s < 3) :
    (dfu_fill_entity_mmc env dfu0 s).1 = - ENODEV := by
  rcases h2nd : (strsepL s).2 with _ | r
  · simp [dfu_fill_entity_mmc, strsep, h2nd]
  · rcases h3rd : (strsepL r).2 with _ | r2
    · simp [dfu_fill_entity_mmc, strsep, h2nd, h3rd]
    · have hcnt : 3 ≤ tokenCount s := by
        unfold tokenCount
        have e1 := strsepL_count_some s r h2nd
        have e2 := strsepL_count_some r r2 h3rd
        omega
      rcases h with h | h
      · simp only [List.mem_cons, List.not_mem_nil, or_false, not_or] at h
        have ha : (strsepL s).1 = firstToken s := strsepL_fst s
        simp only [dfu_fill_entity_mmc, strsep, h2nd, h3rd]
        rw [ha]
        exact dfu_fill_entity_core_unknown env dfu0 _ _ _ _
          h.1 h.2.1 h.2.2.1 h.2.2.2
      · omega

/-- Witness for C8 at concrete inputs: `"xyz 1 2"` (unknown first token)
and `"raw 100"` (two tokens) are both rejected with `-ENODEV`. -/
theorem descriptor_invalid_rejected_witness :
    (dfu_fill_entity_mmc ⟨some ⟨512⟩, 0, fun _ => none⟩
      ⟨DfuLayout.raw_addr, 0, 0, 0, 0, 0, 0, ""⟩ ("xyz 1 2".toList)).1 =
      - ENODEV ∧
    (dfu_fill_entity_mmc ⟨some ⟨512⟩, 0, fun _ => none⟩
      ⟨DfuLayout.raw_addr, 0, 0, 0, 0, 0, 0, ""⟩ ("raw 100".toList)).1 =
      - ENODEV :=
  ⟨descriptor_invalid_rejected ⟨some ⟨512⟩, 0, fun _ => none⟩
      ⟨DfuLayout.raw_addr, 0, 0, 0, 0, 0, 0, ""⟩ ("xyz 1 2".toList)
      (Or.inl (by decide)),
    descriptor_invalid_rejected ⟨some ⟨512⟩, 0, fun _ => none⟩
      ⟨DfuLayout.raw_addr, 0, 0, 0, 0, 0, 0, ""⟩ ("raw 100".toList)
      (Or.inr (by decide))⟩
